import Mathlib

/-
Verification development for the multi-tenant provisioning tool
(tools/provision-tenant.py). The tier table, the five manifest
renderers and the create / delete / list operations of the tool are
embedded as pure Lean functions over an explicit filesystem state, and
the testable properties of the design document are settled against
this embedding.
-/

set_option autoImplicit false
set_option maxHeartbeats 2000000
set_option maxRecDepth 100000

namespace ProvisionTenant

/-- Resource profile of one tier, the value type of the TIERS table. -/
structure TierConfig where
  replicas : Nat
  memory_request : String
  memory_limit : String
  cpu_request : String
  cpu_limit : String
deriving DecidableEq

/-- Valid tier names: the keys of the TIERS table. The CLI restricts the
tier argument to exactly these choices. -/
inductive Tier
  | small
  | standard
  | large
deriving DecidableEq

/-- Embedding of the TIERS lookup table of the tool. -/
def TIERS : Tier → TierConfig
  | Tier.small => ⟨1, "128Mi", "256Mi", "100m", "200m"⟩
  | Tier.standard => ⟨2, "256Mi", "512Mi", "200m", "400m"⟩
  | Tier.large => ⟨3, "512Mi", "1Gi", "500m", "1000m"⟩

/-- Embedding of create_namespace_yaml: the namespace manifest template
with the tenant name interpolated, exactly as the f-string renders it. -/
def create_namespace_yaml (tenant_name : String) : String :=
  "---\napiVersion: v1\nkind: Namespace\nmetadata:\n  name: tenant-"
    ++ tenant_name
    ++ "\n  labels:\n    tenant: "
    ++ tenant_name
    ++ "\n"

/-- Embedding of create_deployment_yaml: the deployment manifest template
with the tenant name and the tier profile fields interpolated. -/
def create_deployment_yaml (tenant_name : String) (tier : Tier) : String :=
  "---\napiVersion: apps/v1\nkind: Deployment\nmetadata:\n  name: nginx-deployment\n  namespace: tenant-"
    ++ tenant_name
    ++ "\n  labels:\n    app: web\n    tenant: "
    ++ tenant_name
    ++ "\nspec:\n  replicas: "
    ++ toString (TIERS tier).replicas
    ++ "\n  selector:\n    matchLabels:\n      app: web\n  template:\n    metadata:\n      labels:\n        app: web\n        tenant: "
    ++ tenant_name
    ++ "\n    spec:\n      containers:\n      - name: nginx\n        image: nginx:1.21\n        ports:\n        - containerPort: 80\n        resources:\n          requests:\n            memory: \""
    ++ (TIERS tier).memory_request
    ++ "\"\n            cpu: \""
    ++ (TIERS tier).cpu_request
    ++ "\"\n          limits:\n            memory: \""
    ++ (TIERS tier).memory_limit
    ++ "\"\n            cpu: \""
    ++ (TIERS tier).cpu_limit
    ++ "\"\n"

/-- Embedding of create_service_yaml. -/
def create_service_yaml (tenant_name : String) : String :=
  "---\napiVersion: v1\nkind: Service\nmetadata:\n  name: nginx-service\n  namespace: tenant-"
    ++ tenant_name
    ++ "\n  labels:\n    app: web\n    tenant: "
    ++ tenant_name
    ++ "\nspec:\n  type: ClusterIP\n  selector:\n    app: web\n  ports:\n  - port: 80\n    targetPort: 80\n    protocol: TCP\n"

/-- Embedding of create_configmap_yaml. -/
def create_configmap_yaml (tenant_name : String) : String :=
  "---\napiVersion: v1\nkind: ConfigMap\nmetadata:\n  name: app-config\n  namespace: tenant-"
    ++ tenant_name
    ++ "\n  labels:\n    tenant: "
    ++ tenant_name
    ++ "\ndata:\n  database_host: \"postgres.example.com\"\n  database_port: \"5432\"\n  app_mode: \"production\"\n  log_level: \"info\"\n"

/-- Embedding of create_argocd_application_yaml. -/
def create_argocd_application_yaml (tenant_name : String) : String :=
  "---\napiVersion: argoproj.io/v1alpha1\nkind: Application\nmetadata:\n  name: "
    ++ tenant_name
    ++ "-tenant\n  namespace: argocd\n  labels:\n    tenant: "
    ++ tenant_name
    ++ "\n  finalizers:\n    - resources-finalizer.argocd.argoproj.io\nspec:\n  project: default\n  source:\n    repoURL: https://github.com/moahmed90/multi-tenant-platform\n    targetRevision: main\n    path: gitops/tenants/"
    ++ tenant_name
    ++ "\n  destination:\n    server: https://kubernetes.default.svc\n    namespace: tenant-"
    ++ tenant_name
    ++ "\n  syncPolicy:\n    automated:\n      prune: true\n      selfHeal: true\n    syncOptions:\n      - CreateNamespace=true\n  ignoreDifferences:\n    - group: apps\n      kind: Deployment\n      jsonPointers:\n        - /spec/replicas\n"

/-- Boolean test that the first list is a prefix of the second, on
character lists. Used to model Python substring and startswith tests. -/
def charsPrefix : List Char → List Char → Bool
  | [], _ => true
  | _ :: _, [] => false
  | a :: as, b :: bs => a == b && charsPrefix as bs

/-- Boolean substring occurrence test on character lists: the needle
occurs contiguously somewhere in the haystack. -/
def charsContains (needle : List Char) : List Char → Bool
  | [] => needle.isEmpty
  | b :: bs => charsPrefix needle (b :: bs) || charsContains needle bs

/-- Embedding of the Python membership test on strings: needle occurs as
a contiguous substring of hay. -/
def strContains (hay needle : String) : Bool :=
  charsContains needle.data hay.data

/-- Embedding of the Python startswith test on strings. -/
def pyStartsWith (s pre : String) : Bool :=
  charsPrefix pre.data s.data

/-- ASCII lower-casing of one character, the fragment of the Python
str.lower mapping relevant to the affirmative token comparison. -/
def pyLowerChar (c : Char) : Char :=
  if 65 ≤ c.toNat && c.toNat ≤ 90 then Char.ofNat (c.toNat + 32) else c

/-- Embedding of the Python str.lower call applied to the confirmation
input (ASCII range; no character outside that range lower-cases to a
character of the affirmative token). -/
def pyLower (s : String) : String :=
  String.mk (s.data.map pyLowerChar)

/-- One first-level entry under the tenants root: a directory holding
named files, or a plain file. -/
inductive Entry
  | dir (files : List (String × String))
  | file (content : String)
deriving DecidableEq

/-- Filesystem state visible to the tool: whether the tenants root
directory exists, its first-level entries, and the files of the shared
ArgoCD directory. Keys are entry names, values the content. -/
structure FS where
  tenantsRootExists : Bool
  entries : List (String × Entry)
  argocd : List (String × String)
deriving DecidableEq

/-- The empty working directory, before any tenant is provisioned. -/
def emptyFS : FS := ⟨false, [], []⟩

/-- Write-through update of an association list: overwrite the first
binding of the key in place, or append a new binding at the end. Models
overwriting a file (or directory entry) of that name. -/
def alUpdate {α : Type} (k : String) (v : α) : List (String × α) → List (String × α)
  | [] => [(k, v)]
  | (k₀, v₀) :: rest => if k₀ == k then (k, v) :: rest else (k₀, v₀) :: alUpdate k v rest

/-- Lookup in an association list, first binding wins. Models reading a
directory entry or file by name. -/
def alLookup {α : Type} (k : String) : List (String × α) → Option α
  | [] => none
  | (k₀, v) :: rest => if k₀ == k then some v else alLookup k rest

/-- Removal of the binding of a key from an association list. Models
deleting the entry of that name. -/
def alErase {α : Type} (k : String) (l : List (String × α)) : List (String × α) :=
  l.filter (fun e => e.1 != k)

/-- The four per-tenant manifest writes of create_tenant, in source
order: namespace, deployment, service, configmap, each overwriting any
existing file of the same name in the tenant directory. -/
def tenantFilesWrite (name : String) (tier : Tier) (files : List (String × String)) : List (String × String) :=
  alUpdate ("configmap.yaml") (create_configmap_yaml name)
    (alUpdate ("service.yaml") (create_service_yaml name)
      (alUpdate ("deployment.yaml") (create_deployment_yaml name tier)
        (alUpdate ("namespace.yaml") (create_namespace_yaml name) files)))

/-- Name of the companion ArgoCD application file of a tenant. -/
def argocdFileName (name : String) : String :=
  "application-" ++ name ++ ".yaml"

/-- The filesystem after the writes of create_tenant: the tenants root
exists, the tenant directory holds the four manifests, and the ArgoCD
application file is written (each write overwriting). -/
def createWrite (name : String) (tier : Tier) (files : List (String × String)) (fs : FS) : FS :=
  { tenantsRootExists := true,
    entries := alUpdate name (Entry.dir (tenantFilesWrite name tier files)) fs.entries,
    argocd := alUpdate (argocdFileName name) (create_argocd_application_yaml name) fs.argocd }

/-- Embedding of create_tenant: mkdir with exist_ok reuses an existing
tenant directory and fails (FileExistsError, modelled as none) when a
plain file occupies the tenant path; then the five manifest writes. -/
def create_tenant (name : String) (tier : Tier) (fs : FS) : Option FS :=
  match alLookup name fs.entries with
  | some (Entry.file _) => none
  | some (Entry.dir files) => some (createWrite name tier files fs)
  | none => some (createWrite name tier [] fs)

/-- Outcome of delete_tenant: the not-found early return, the declined
confirmation, the completed removal, or the exception shutil.rmtree
raises when the tenant path is not a directory. -/
inductive DeleteResult
  | notFound
  | cancelled
  | deleted
  | raised
deriving DecidableEq

/-- Embedding of delete_tenant. The confirmation line read from the
operator is passed as the confirm argument; it is consulted only after
the existence check, and removal proceeds exactly when its lower-cased
form equals the affirmative token. -/
def delete_tenant (name confirm : String) (fs : FS) : FS × DeleteResult :=
  match alLookup name fs.entries with
  | none => (fs, DeleteResult.notFound)
  | some e =>
    if pyLower confirm != ("yes" : String) then (fs, DeleteResult.cancelled)
    else
      match e with
      | Entry.file _ => (fs, DeleteResult.raised)
      | Entry.dir _ =>
        ({ fs with entries := alErase name fs.entries,
                   argocd := alErase (argocdFileName name) fs.argocd },
         DeleteResult.deleted)

/-- Tier re-derivation of list_tenants from the deployment manifest
text: substring match on the small replica marker, then the large one,
anything else reported as standard. -/
def deriveTier (content : String) : String :=
  if strContains content ("replicas: 1") then "small"
  else if strContains content ("replicas: 3") then "large"
  else "standard"

/-- Tier line printed for one listed directory: present only when the
deployment manifest file exists, in which case it carries the
re-derived tier. -/
def tierLine : Entry → Option String
  | Entry.dir files => (alLookup ("deployment.yaml") files).map deriveTier
  | Entry.file _ => none

/-- Directory test of one first-level entry. -/
def entryIsDir : Entry → Bool
  | Entry.dir _ => true
  | Entry.file _ => false

/-- Stable insertion of one entry into a name-sorted list of entries. -/
def insertByName (x : String × Entry) : List (String × Entry) → List (String × Entry)
  | [] => [x]
  | y :: ys => if x.1 ≤ y.1 then x :: y :: ys else y :: insertByName x ys

/-- Name-sorted enumeration of the first-level entries, modelling the
sorted iterdir call of list_tenants. -/
def sortEntries : List (String × Entry) → List (String × Entry)
  | [] => []
  | x :: xs => insertByName x (sortEntries xs)

/-- Embedding of list_tenants: the empty report when the tenants root is
missing; otherwise, for each first-level directory whose name does not
start with a dot, in sorted order, the tenant name together with its
optional tier line. -/
def list_tenants (fs : FS) : List (String × Option String) :=
  if fs.tenantsRootExists then
    List.map (fun e => (e.1, tierLine e.2))
      ((sortEntries fs.entries).filter
        (fun e => entryIsDir e.2 && !(pyStartsWith e.1 ("."))))
  else []

/-- Filesystem-path-safe tenant name, as the data model of the design
document requires of tenant identifiers: nonempty, not a dot directory,
and free of path separators, so that the name denotes one first-level
directory entry. -/
def pathSafe (name : String) : Bool :=
  name != ("") && name != (".") && name != ("..") && !(strContains name ("/"))

/-- Accumulating decimal digit parser over a character list; fails on
any non-digit character. -/
def parseDigitsAux : List Char → Nat → Option Nat
  | [], acc => some acc
  | c :: cs, acc => if c.isDigit then parseDigitsAux cs (acc * 10 + (c.toNat - 48)) else none

/-- Decimal number parser over a nonempty character list. -/
def parseNat : List Char → Option Nat
  | [] => none
  | c :: cs => parseDigitsAux (c :: cs) 0

/-- Modelled from the spec: exact numeric reading of a Kubernetes memory
quantity string with a binary suffix, in bytes (Mi is two to the 20th,
Gi is two to the 30th). The source stores these quantities only as
literal strings; this reading is the arithmetic lens the resource
invariant of the design document is stated through. -/
def memBytes (s : String) : Option Nat :=
  match s.data.reverse with
  | 'i' :: 'M' :: rest => (parseNat rest.reverse).map (fun n => n * 1048576)
  | 'i' :: 'G' :: rest => (parseNat rest.reverse).map (fun n => n * 1073741824)
  | _ => none

/-- Modelled from the spec: exact numeric reading of a Kubernetes cpu
quantity string with the m suffix, in millicores. -/
def cpuMilli (s : String) : Option Nat :=
  match s.data.reverse with
  | 'm' :: rest => parseNat rest.reverse
  | _ => none

/-- A list is a prefix of itself. -/
theorem charsPrefix_self (n : List Char) : charsPrefix n n = true := by
  induction n with
  | nil => rfl
  | cons a as ih => simp [charsPrefix, ih]

/-- A prefix of a list is a prefix of any right extension of it. -/
theorem charsPrefix_extend {n h : List Char} (t : List Char)
    (hp : charsPrefix n h = true) : charsPrefix n (h ++ t) = true := by
  induction n generalizing h with
  | nil => rfl
  | cons a as ih =>
    cases h with
    | nil => simp [charsPrefix] at hp
    | cons b bs =>
      simp only [charsPrefix, Bool.and_eq_true] at hp
      simp only [List.cons_append, charsPrefix, Bool.and_eq_true]
      exact ⟨hp.1, ih hp.2⟩

/-- The empty needle occurs in every haystack. -/
theorem charsContains_nil (l : List Char) : charsContains [] l = true := by
  cases l with
  | nil => rfl
  | cons b bs => simp [charsContains, charsPrefix]

/-- A needle that is a prefix of the haystack occurs in it. -/
theorem charsContains_of_pfx {n h : List Char}
    (hp : charsPrefix n h = true) : charsContains n h = true := by
  cases h with
  | nil =>
    cases n with
    | nil => rfl
    | cons a as => simp [charsPrefix] at hp
  | cons b bs => simp [charsContains, hp]

/-- Occurrence of a needle is preserved by extending the haystack on
the left. -/
theorem charsContains_append_left {n h : List Char} (x : List Char)
    (hc : charsContains n h = true) : charsContains n (x ++ h) = true := by
  induction x with
  | nil => simpa using hc
  | cons c cs ih => simp [charsContains, ih]

/-- Occurrence of a needle is preserved by extending the haystack on
the right. -/
theorem charsContains_append_right {n h : List Char} (t : List Char)
    (hc : charsContains n h = true) : charsContains n (h ++ t) = true := by
  induction h with
  | nil =>
    have : n = [] := by
      cases n with
      | nil => rfl
      | cons a as => simp [charsContains, List.isEmpty] at hc
    subst this
    exact charsContains_nil t
  | cons b bs ih =>
    simp only [charsContains, Bool.or_eq_true] at hc
    rcases hc with hp | hcc
    · simp only [List.cons_append, charsContains, Bool.or_eq_true]
      exact Or.inl (charsPrefix_extend t hp)
    · simp only [List.cons_append, charsContains, Bool.or_eq_true]
      exact Or.inr (ih hcc)

/-- A string contains any string it ends with. -/
theorem strContains_append_self (s n : String) : strContains (s ++ n) n = true := by
  unfold strContains
  rw [String.data_append]
  exact charsContains_append_left s.data (charsContains_of_pfx (by simpa using charsPrefix_self n.data))

/-- Containment survives appending more text on the right. -/
theorem strContains_extend_right {s n : String} (t : String)
    (hc : strContains s n = true) : strContains (s ++ t) n = true := by
  unfold strContains at hc ⊢
  rw [String.data_append]
  exact charsContains_append_right t.data hc

/-- Rebracketing of two adjacent append segments that denote the same
text: used to realign a template literal boundary with a marker
boundary. -/
theorem append_swap (a b c d : String) (h : a ++ b = c ++ d) (r : String) :
    a ++ (b ++ r) = c ++ (d ++ r) := by
  rw [← String.append_assoc, h, String.append_assoc]

/-- Lookup immediately after an update of the same key yields the
written value. -/
theorem alLookup_update_self {α : Type} (k : String) (v : α) (l : List (String × α)) :
    alLookup k (alUpdate k v l) = some v := by
  induction l with
  | nil => simp [alUpdate, alLookup]
  | cons e rest ih =>
    obtain ⟨k₀, v₀⟩ := e
    by_cases hk : (k₀ == k) = true
    · simp [alUpdate, hk, alLookup]
    · simp [alUpdate, hk, alLookup, ih]

/-- Lookup of a key is unchanged by an update of a different key. -/
theorem alLookup_update_ne {α : Type} {k₀ k : String} (h : k₀ ≠ k) (v : α)
    (l : List (String × α)) : alLookup k (alUpdate k₀ v l) = alLookup k l := by
  induction l with
  | nil => simp [alUpdate, alLookup, h]
  | cons e rest ih =>
    obtain ⟨k₁, v₁⟩ := e
    by_cases hk : (k₁ == k₀) = true
    · have hks : k₁ = k₀ := by simpa using hk
      subst hks
      simp [alUpdate, alLookup, h]
    · simp [alUpdate, hk, alLookup, ih]

/-- Writing back the value a key already holds leaves the list
unchanged. -/
theorem alUpdate_of_lookup_eq {α : Type} {k : String} {v : α} {l : List (String × α)}
    (h : alLookup k l = some v) : alUpdate k v l = l := by
  induction l with
  | nil => simp [alLookup] at h
  | cons e rest ih =>
    obtain ⟨k₁, v₁⟩ := e
    by_cases hk : (k₁ == k) = true
    · have hks : k₁ = k := by simpa using hk
      subst hks
      have hv : v₁ = v := by simpa [alLookup] using h
      subst hv
      simp [alUpdate]
    · simp only [alLookup, hk, if_false] at h
      simp [alUpdate, hk, ih h]

/-- The written binding is a member of the updated list. -/
theorem mem_alUpdate_self {α : Type} (k : String) (v : α) (l : List (String × α)) :
    (k, v) ∈ alUpdate k v l := by
  induction l with
  | nil => simp [alUpdate]
  | cons e rest ih =>
    obtain ⟨k₁, v₁⟩ := e
    by_cases hk : (k₁ == k) = true
    · simp [alUpdate, hk]
    · simp only [alUpdate, hk, if_false]
      exact List.mem_cons_of_mem _ ih

/-- No member of an erased list carries the erased key. -/
theorem ne_of_mem_alErase {α : Type} {k : String} {l : List (String × α)}
    {e : String × α} (h : e ∈ alErase k l) : e.1 ≠ k := by
  have := (List.mem_filter.mp h).2
  simpa [bne_iff_ne] using this

/-- Membership is preserved in both directions by sorted insertion. -/
theorem mem_insertByName {x y : String × Entry} {l : List (String × Entry)} :
    y ∈ insertByName x l ↔ y = x ∨ y ∈ l := by
  induction l with
  | nil => simp [insertByName]
  | cons z zs ih =>
    by_cases hle : x.1 ≤ z.1
    · simp [insertByName, hle]
    · simp only [insertByName, hle, if_false, List.mem_cons, ih]
      tauto

/-- Sorting the entries does not change their membership. -/
theorem mem_sortEntries {y : String × Entry} {l : List (String × Entry)} :
    y ∈ sortEntries l ↔ y ∈ l := by
  induction l with
  | nil => simp [sortEntries]
  | cons x xs ih => simp [sortEntries, mem_insertByName, ih]

/-- Every first-level directory entry whose name is not hidden appears
in the listing, paired with its optional tier line. -/
theorem mem_list_tenants {fs : FS} {name : String} {files : List (String × String)}
    (hroot : fs.tenantsRootExists = true)
    (hmem : (name, Entry.dir files) ∈ fs.entries)
    (hdot : pyStartsWith name (".") = false) :
    (name, (alLookup ("deployment.yaml") files).map deriveTier) ∈ list_tenants fs := by
  unfold list_tenants
  rw [hroot]
  simp only [if_true]
  exact List.mem_map_of_mem _
    (List.mem_filter.mpr ⟨mem_sortEntries.mpr hmem, by simp [entryIsDir, hdot]⟩)

/-- Every listed pair takes its name from some first-level entry. -/
theorem list_tenants_names {fs : FS} {p : String × Option String}
    (hp : p ∈ list_tenants fs) : ∃ e ∈ fs.entries, e.1 = p.1 := by
  unfold list_tenants at hp
  by_cases hroot : fs.tenantsRootExists = true
  · rw [hroot] at hp
    simp only [if_true] at hp
    obtain ⟨e, he, hfe⟩ := List.mem_map.mp hp
    exact ⟨e, mem_sortEntries.mp (List.mem_filter.mp he).1, by rw [← hfe]⟩
  · simp only [Bool.not_eq_true] at hroot
    rw [hroot] at hp
    simp at hp

/-- The deployment manifest stored by the four per-tenant writes. -/
theorem lookup_deployment (name : String) (tier : Tier) (F : List (String × String)) :
    alLookup ("deployment.yaml") (tenantFilesWrite name tier F) =
      some (create_deployment_yaml name tier) := by
  unfold tenantFilesWrite
  rw [alLookup_update_ne (by decide), alLookup_update_ne (by decide), alLookup_update_self]

/-- The namespace manifest stored by the four per-tenant writes. -/
theorem lookup_namespace (name : String) (tier : Tier) (F : List (String × String)) :
    alLookup ("namespace.yaml") (tenantFilesWrite name tier F) =
      some (create_namespace_yaml name) := by
  unfold tenantFilesWrite
  rw [alLookup_update_ne (by decide), alLookup_update_ne (by decide),
    alLookup_update_ne (by decide), alLookup_update_self]

/-- The service manifest stored by the four per-tenant writes. -/
theorem lookup_service (name : String) (tier : Tier) (F : List (String × String)) :
    alLookup ("service.yaml") (tenantFilesWrite name tier F) =
      some (create_service_yaml name) := by
  unfold tenantFilesWrite
  rw [alLookup_update_ne (by decide), alLookup_update_self]

/-- The configmap manifest stored by the four per-tenant writes. -/
theorem lookup_configmap (name : String) (tier : Tier) (F : List (String × String)) :
    alLookup ("configmap.yaml") (tenantFilesWrite name tier F) =
      some (create_configmap_yaml name) := by
  unfold tenantFilesWrite
  rw [alLookup_update_self]

/-- A file table already holding the four rendered manifests is left
unchanged by writing them again. -/
theorem tenantFilesWrite_fixed (name : String) (tier : Tier) (G : List (String × String))
    (hns : alLookup ("namespace.yaml") G = some (create_namespace_yaml name))
    (hdep : alLookup ("deployment.yaml") G = some (create_deployment_yaml name tier))
    (hsv : alLookup ("service.yaml") G = some (create_service_yaml name))
    (hcm : alLookup ("configmap.yaml") G = some (create_configmap_yaml name)) :
    tenantFilesWrite name tier G = G := by
  unfold tenantFilesWrite
  rw [alUpdate_of_lookup_eq hns, alUpdate_of_lookup_eq hdep,
    alUpdate_of_lookup_eq hsv, alUpdate_of_lookup_eq hcm]

/-- A successful create always produces the canonical written state,
over the prior content of the tenant directory. -/
theorem create_tenant_some {name : String} {tier : Tier} {fs fs₁ : FS}
    (h : create_tenant name tier fs = some fs₁) :
    ∃ F, fs₁ = createWrite name tier F fs := by
  unfold create_tenant at h
  cases hl : alLookup name fs.entries with
  | none =>
    rw [hl] at h
    exact ⟨[], (Option.some_inj.mp h).symm⟩
  | some e =>
    cases e with
    | file c =>
      rw [hl] at h
      exact Option.noConfusion h
    | dir files =>
      rw [hl] at h
      exact ⟨files, (Option.some_inj.mp h).symm⟩

/-- The deployment text rendered for tier small carries the small
replica marker. -/
theorem dep_small_marker (name : String) :
    strContains (create_deployment_yaml name Tier.small) ("replicas: 1") = true := by
  unfold create_deployment_yaml
  rw [show toString (TIERS Tier.small).replicas = ("1" : String) from rfl]
  iterate 11 apply strContains_extend_right
  rw [String.append_assoc]
  rw [show (("\nspec:\n  replicas: " : String) ++ ("1")) = ("\nspec:\n  ") ++ ("replicas: 1") from by decide]
  rw [← String.append_assoc]
  apply strContains_append_self

/-- The deployment text rendered for tier large carries the large
replica marker. -/
theorem dep_large_marker (name : String) :
    strContains (create_deployment_yaml name Tier.large) ("replicas: 3") = true := by
  unfold create_deployment_yaml
  rw [show toString (TIERS Tier.large).replicas = ("3" : String) from rfl]
  iterate 11 apply strContains_extend_right
  rw [String.append_assoc]
  rw [show (("\nspec:\n  replicas: " : String) ++ ("3")) = ("\nspec:\n  ") ++ ("replicas: 3") from by decide]
  rw [← String.append_assoc]
  apply strContains_append_self

/-- After a successful create, the listing reports the tenant with the
tier re-derived from the deployment text just rendered. -/
theorem mem_after_create {name : String} {tier : Tier} {fs fs₁ : FS}
    (h : create_tenant name tier fs = some fs₁)
    (hdot : pyStartsWith name (".") = false) :
    (name, some (deriveTier (create_deployment_yaml name tier))) ∈ list_tenants fs₁ := by
  obtain ⟨F, rfl⟩ := create_tenant_some h
  have hroot : (createWrite name tier F fs).tenantsRootExists = true := rfl
  have hmem : (name, Entry.dir (tenantFilesWrite name tier F)) ∈ (createWrite name tier F fs).entries :=
    mem_alUpdate_self name (Entry.dir (tenantFilesWrite name tier F)) fs.entries
  have hm := mem_list_tenants hroot hmem hdot
  rw [lookup_deployment] at hm
  simpa using hm

/-- Claim C1, counterexample: the round trip fails as stated. A tenant
named with the small replica marker text, created with tier large, is
reported by list as small, not large (the small marker is matched first
as a substring of the whole deployment text, into which the name is
interpolated); and a tenant whose name starts with a dot is not
reported at all. -/
theorem C1_counterexample :
    ((create_tenant ("replicas: 1") Tier.large emptyFS).map
        (fun fs => alLookup ("replicas: 1") (list_tenants fs)) =
      some (some (some ("small")))) ∧
    (("small" : String) ≠ ("large")) ∧
    ((create_tenant (".hidden") Tier.small emptyFS).map
        (fun fs => alLookup (".hidden") (list_tenants fs)) =
      some none) :=
  ⟨by decide, by decide, by decide⟩

/-- Claim C1, amended: after create of a path-safe, non-hidden tenant
name, list reports the tenant with tier small unconditionally when the
tier was small; with tier large provided the small replica marker does
not also occur in the rendered deployment text; and with tier standard
provided neither other replica marker occurs in that text. -/
theorem C1_roundtrip_amended (name : String) (tier : Tier) (fs fs₁ : FS)
    (_hsafe : pathSafe name = true)
    (hdot : pyStartsWith name (".") = false)
    (h : create_tenant name tier fs = some fs₁) :
    (tier = Tier.small → (name, some ("small" : String)) ∈ list_tenants fs₁) ∧
    (tier = Tier.large →
      strContains (create_deployment_yaml name Tier.large) ("replicas: 1") = false →
      (name, some ("large" : String)) ∈ list_tenants fs₁) ∧
    (tier = Tier.standard →
      strContains (create_deployment_yaml name Tier.standard) ("replicas: 1") = false →
      strContains (create_deployment_yaml name Tier.standard) ("replicas: 3") = false →
      (name, some ("standard" : String)) ∈ list_tenants fs₁) := by
  refine ⟨?_, ?_, ?_⟩
  · intro ht
    subst ht
    have hm := mem_after_create h hdot
    rw [show deriveTier (create_deployment_yaml name Tier.small) = ("small" : String) from by
      simp [deriveTier, dep_small_marker]] at hm
    exact hm
  · intro ht h1
    subst ht
    have hm := mem_after_create h hdot
    rw [show deriveTier (create_deployment_yaml name Tier.large) = ("large" : String) from by
      simp [deriveTier, h1, dep_large_marker]] at hm
    exact hm
  · intro ht h1 h3
    subst ht
    have hm := mem_after_create h hdot
    rw [show deriveTier (create_deployment_yaml name Tier.standard) = ("standard" : String) from by
      simp [deriveTier, h1, h3]] at hm
    exact hm

/-- Claim C1, witness: the amended round trip at the concrete tenant
name a with tier small, starting from the empty directory. -/
theorem C1_roundtrip_witness :
    pathSafe ("a") = true ∧
    pyStartsWith ("a") (".") = false ∧
    create_tenant ("a") Tier.small emptyFS =
      some ((create_tenant ("a") Tier.small emptyFS).getD emptyFS) ∧
    ((("a" : String), some ("small" : String)) ∈
      list_tenants ((create_tenant ("a") Tier.small emptyFS).getD emptyFS)) :=
  ⟨by decide, by decide, rfl,
    (C1_roundtrip_amended ("a") Tier.small emptyFS
      ((create_tenant ("a") Tier.small emptyFS).getD emptyFS)
      (by decide) (by decide) rfl).1 rfl⟩

/-- Claim C2, counterexample: deletion proceeds on the input YES, which
is not the exact affirmative token yes, because the code lower-cases
the confirmation input before comparing. -/
theorem C2_counterexample :
    ((create_tenant ("a") Tier.small emptyFS).map
        (fun fs => (delete_tenant ("a") ("YES") fs).2) = some DeleteResult.deleted) ∧
    (("YES" : String) ≠ ("yes")) :=
  ⟨by decide, by decide⟩

/-- Claim C2, amended: for an existing tenant directory, delete removes
files exactly when the lower-cased confirmation input equals the
affirmative token yes; any input whose lower-cased form differs cancels
the operation and leaves the filesystem completely unchanged. -/
theorem C2_confirmation_amended (fs : FS) (name confirm : String)
    (files : List (String × String))
    (h : alLookup name fs.entries = some (Entry.dir files)) :
    (pyLower confirm = ("yes" : String) →
      delete_tenant name confirm fs =
        ({ fs with entries := alErase name fs.entries,
                   argocd := alErase (argocdFileName name) fs.argocd },
         DeleteResult.deleted)) ∧
    (pyLower confirm ≠ ("yes" : String) →
      delete_tenant name confirm fs = (fs, DeleteResult.cancelled)) := by
  constructor
  · intro hc
    simp [delete_tenant, h, hc]
  · intro hc
    simp [delete_tenant, h, hc]

/-- Claim C2, witness: the amended confirmation behaviour at the
concrete input No against a freshly created tenant a. -/
theorem C2_confirmation_witness :
    alLookup ("a") ((create_tenant ("a") Tier.small emptyFS).getD emptyFS).entries =
      some (Entry.dir (tenantFilesWrite ("a") Tier.small [])) ∧
    pyLower ("No") ≠ ("yes" : String) ∧
    delete_tenant ("a") ("No") ((create_tenant ("a") Tier.small emptyFS).getD emptyFS) =
      (((create_tenant ("a") Tier.small emptyFS).getD emptyFS), DeleteResult.cancelled) :=
  ⟨by decide, by decide,
    (C2_confirmation_amended ((create_tenant ("a") Tier.small emptyFS).getD emptyFS)
      ("a") ("No") (tenantFilesWrite ("a") Tier.small []) (by decide)).2 (by decide)⟩

/-- Claim C3, counterexample: a listed tenant directory with no
deployment manifest file is reported with no tier line at all, not with
tier standard as the claim states. -/
theorem C3_counterexample :
    list_tenants ⟨true, [(("a" : String), Entry.dir [])], []⟩ =
      [(("a" : String), (none : Option String))] ∧
    (none : Option String) ≠ some ("standard") :=
  ⟨by decide, by decide⟩

/-- Claim C3, amended: for every first-level tenant directory it
reports, list prints a tier line only when the deployment manifest file
exists, and then derives the tier from the manifest text: a substring
match on the small replica marker maps to small, else the large marker
maps to large, and any other content is reported as standard; when the
file is absent no tier is reported. -/
theorem C3_list_tier_amended (fs : FS) (name : String)
    (files : List (String × String))
    (hroot : fs.tenantsRootExists = true)
    (hmem : (name, Entry.dir files) ∈ fs.entries)
    (hdot : pyStartsWith name (".") = false) :
    (name, (alLookup ("deployment.yaml") files).map
        (fun content =>
          if strContains content ("replicas: 1") then "small"
          else if strContains content ("replicas: 3") then "large"
          else "standard")) ∈ list_tenants fs :=
  mem_list_tenants hroot hmem hdot

/-- Claim C3, witness: the amended listing behaviour at a concrete
directory holding no deployment manifest, reported without a tier. -/
theorem C3_list_tier_witness :
    ((("a" : String), Entry.dir []) ∈
      (⟨true, [(("a" : String), Entry.dir [])], []⟩ : FS).entries) ∧
    ((("a" : String), (none : Option String)) ∈
      list_tenants ⟨true, [(("a" : String), Entry.dir [])], []⟩) :=
  ⟨by decide,
    C3_list_tier_amended ⟨true, [(("a" : String), Entry.dir [])], []⟩ ("a") []
      rfl (by decide) (by decide)⟩

/-- Claim C4: the five manifest renderers are total pure functions of
the tenant name (and tier profile for the deployment), defined here for
every tenant-name string and every tier of the table with no failure
case and no effect; any malformed tenant name propagates uninspected
into the rendered text, which always carries the name verbatim. -/
theorem C4_renderers_total (name : String) (tier : Tier) :
    strContains (create_namespace_yaml name) name = true ∧
    strContains (create_deployment_yaml name tier) name = true ∧
    strContains (create_service_yaml name) name = true ∧
    strContains (create_configmap_yaml name) name = true ∧
    strContains (create_argocd_application_yaml name) name = true := by
  refine ⟨?_, ?_, ?_, ?_, ?_⟩
  · unfold create_namespace_yaml
    apply strContains_extend_right
    apply strContains_append_self
  · unfold create_deployment_yaml
    iterate 9 apply strContains_extend_right
    apply strContains_append_self
  · unfold create_service_yaml
    apply strContains_extend_right
    apply strContains_append_self
  · unfold create_configmap_yaml
    apply strContains_extend_right
    apply strContains_append_self
  · unfold create_argocd_application_yaml
    apply strContains_extend_right
    apply strContains_append_self

/-- Claim C5: deleting a tenant whose directory entry does not exist
reports not found and returns early, for every confirmation input (so
no prompt is consulted) and for every filesystem state, in particular
whatever the ArgoCD directory holds; the state is returned unchanged. -/
theorem C5_delete_not_found (fs : FS) (name confirm : String)
    (h : alLookup name fs.entries = none) :
    delete_tenant name confirm fs = (fs, DeleteResult.notFound) := by
  simp [delete_tenant, h]

/-- Claim C5, witness: deletion of the absent tenant b, with an
affirmative confirmation available and the companion ArgoCD application
file present, still reports not found and changes nothing. -/
theorem C5_delete_not_found_witness :
    alLookup ("b") (FS.mk true [] [(argocdFileName ("b"), ("x"))]).entries = none ∧
    delete_tenant ("b") ("yes") (FS.mk true [] [(argocdFileName ("b"), ("x"))]) =
      ((FS.mk true [] [(argocdFileName ("b"), ("x"))]), DeleteResult.notFound) :=
  ⟨rfl, C5_delete_not_found (FS.mk true [] [(argocdFileName ("b"), ("x"))]) ("b") ("yes") rfl⟩

/-- Claim C6: for an existing tenant directory, delete with accepted
confirmation removes the tenant directory and the companion ArgoCD
application file (absence of the latter being non-fatal, as removal by
name is unconditional), and a subsequent list no longer reports that
tenant under any tier. -/
theorem C6_delete_removes (fs : FS) (name confirm : String)
    (files : List (String × String))
    (h : alLookup name fs.entries = some (Entry.dir files))
    (hc : pyLower confirm = ("yes" : String)) :
    delete_tenant name confirm fs =
      ({ fs with entries := alErase name fs.entries,
                 argocd := alErase (argocdFileName name) fs.argocd },
       DeleteResult.deleted) ∧
    ∀ t : Option String,
      (name, t) ∉ list_tenants
        { fs with entries := alErase name fs.entries,
                  argocd := alErase (argocdFileName name) fs.argocd } := by
  constructor
  · simp [delete_tenant, h, hc]
  · intro t hmem
    obtain ⟨e, he, hkey⟩ := list_tenants_names hmem
    exact ne_of_mem_alErase he hkey

/-- Claim C6, witness: deleting the freshly created tenant a with the
confirmation yes succeeds, and the listing of the resulting state does
not report a with tier small. -/
theorem C6_delete_removes_witness :
    alLookup ("a") ((create_tenant ("a") Tier.small emptyFS).getD emptyFS).entries =
      some (Entry.dir (tenantFilesWrite ("a") Tier.small [])) ∧
    pyLower ("yes") = ("yes" : String) ∧
    (delete_tenant ("a") ("yes") ((create_tenant ("a") Tier.small emptyFS).getD emptyFS)).2 =
      DeleteResult.deleted ∧
    ¬ ((("a" : String), some ("small" : String)) ∈
        list_tenants
          { (create_tenant ("a") Tier.small emptyFS).getD emptyFS with
            entries := alErase ("a")
              ((create_tenant ("a") Tier.small emptyFS).getD emptyFS).entries,
            argocd := alErase (argocdFileName ("a"))
              ((create_tenant ("a") Tier.small emptyFS).getD emptyFS).argocd }) :=
  ⟨by decide, by decide,
    by rw [(C6_delete_removes ((create_tenant ("a") Tier.small emptyFS).getD emptyFS)
        ("a") ("yes") (tenantFilesWrite ("a") Tier.small [])
        (by decide) (by decide)).1],
    (C6_delete_removes ((create_tenant ("a") Tier.small emptyFS).getD emptyFS)
        ("a") ("yes") (tenantFilesWrite ("a") Tier.small [])
        (by decide) (by decide)).2 (some ("small"))⟩

/-- Claim C7: create is idempotent; a second create with the same name
and tier also succeeds and reproduces exactly the same filesystem
state, file for file and byte for byte. -/
theorem C7_create_idempotent (name : String) (tier : Tier) (fs fs₁ : FS)
    (h : create_tenant name tier fs = some fs₁) :
    create_tenant name tier fs₁ = some fs₁ := by
  obtain ⟨F, rfl⟩ := create_tenant_some h
  have hl : alLookup name (createWrite name tier F fs).entries =
      some (Entry.dir (tenantFilesWrite name tier F)) := alLookup_update_self _ _ _
  have hW : tenantFilesWrite name tier (tenantFilesWrite name tier F) =
      tenantFilesWrite name tier F :=
    tenantFilesWrite_fixed name tier _ (lookup_namespace name tier F)
      (lookup_deployment name tier F) (lookup_service name tier F)
      (lookup_configmap name tier F)
  simp only [create_tenant, hl]
  unfold createWrite
  rw [hW]
  rw [alUpdate_of_lookup_eq (alLookup_update_self name
    (Entry.dir (tenantFilesWrite name tier F)) fs.entries)]
  rw [alUpdate_of_lookup_eq (alLookup_update_self (argocdFileName name)
    (create_argocd_application_yaml name) fs.argocd)]

/-- Claim C7, witness: creating tenant a with tier small twice in a row
from the empty directory succeeds both times and leaves the state of
the first create unchanged. -/
theorem C7_create_idempotent_witness :
    create_tenant ("a") Tier.small emptyFS =
      some ((create_tenant ("a") Tier.small emptyFS).getD emptyFS) ∧
    create_tenant ("a") Tier.small ((create_tenant ("a") Tier.small emptyFS).getD emptyFS) =
      some ((create_tenant ("a") Tier.small emptyFS).getD emptyFS) :=
  ⟨rfl, C7_create_idempotent ("a") Tier.small emptyFS _ rfl⟩

/-- Claim C8: creating the same tenant again with a different tier also
succeeds and leaves the deployment manifest equal to the full rendering
for the new tier, so the replica count and all four resource values of
the earlier tier are overwritten by the new ones. -/
theorem C8_create_overwrite (name : String) (a b : Tier) (fs fs₁ : FS)
    (_hab : a ≠ b)
    (h : create_tenant name a fs = some fs₁) :
    ∃ fs₂, create_tenant name b fs₁ = some fs₂ ∧
      ∃ files, alLookup name fs₂.entries = some (Entry.dir files) ∧
        alLookup ("deployment.yaml") files = some (create_deployment_yaml name b) := by
  obtain ⟨F, rfl⟩ := create_tenant_some h
  have hl : alLookup name (createWrite name a F fs).entries =
      some (Entry.dir (tenantFilesWrite name a F)) := alLookup_update_self _ _ _
  refine ⟨createWrite name b (tenantFilesWrite name a F) (createWrite name a F fs), ?_, ?_⟩
  · simp [create_tenant, hl]
  · exact ⟨tenantFilesWrite name b (tenantFilesWrite name a F),
      alLookup_update_self _ _ _, lookup_deployment _ _ _⟩

/-- Claim C8, witness: tenant a created with tier small and then with
tier large carries the deployment manifest rendered for large. -/
theorem C8_create_overwrite_witness :
    Tier.small ≠ Tier.large ∧
    create_tenant ("a") Tier.small emptyFS =
      some ((create_tenant ("a") Tier.small emptyFS).getD emptyFS) ∧
    (∃ fs₂, create_tenant ("a") Tier.large
        ((create_tenant ("a") Tier.small emptyFS).getD emptyFS) = some fs₂ ∧
      ∃ files, alLookup ("a") fs₂.entries = some (Entry.dir files) ∧
        alLookup ("deployment.yaml") files =
          some (create_deployment_yaml ("a") Tier.large)) :=
  ⟨by decide, rfl,
    C8_create_overwrite ("a") Tier.small Tier.large emptyFS _ (by decide) rfl⟩

/-- Claim C9: the TIERS table defines exactly the three tiers small,
standard and large, and for every tier the memory limit and cpu limit
are at least the corresponding request, reading the quantity strings
numerically (Mi and Gi as binary byte multiples, m as millicores). -/
theorem C9_tier_table :
    (∀ t : Tier, t = Tier.small ∨ t = Tier.standard ∨ t = Tier.large) ∧
    Tier.small ≠ Tier.standard ∧ Tier.small ≠ Tier.large ∧ Tier.standard ≠ Tier.large ∧
    (∀ t : Tier, ∃ mr ml cr cl : Nat,
      memBytes (TIERS t).memory_request = some mr ∧
      memBytes (TIERS t).memory_limit = some ml ∧
      cpuMilli (TIERS t).cpu_request = some cr ∧
      cpuMilli (TIERS t).cpu_limit = some cl ∧
      mr ≤ ml ∧ cr ≤ cl) := by
  refine ⟨fun t => ?_, by decide, by decide, by decide, fun t => ?_⟩
  · cases t
    · exact Or.inl rfl
    · exact Or.inr (Or.inl rfl)
    · exact Or.inr (Or.inr rfl)
  · cases t
    · exact ⟨134217728, 268435456, 100, 200, rfl, rfl, rfl, rfl, by decide, by decide⟩
    · exact ⟨268435456, 536870912, 200, 400, rfl, rfl, rfl, rfl, by decide, by decide⟩
    · exact ⟨536870912, 1073741824, 500, 1000, rfl, rfl, rfl, rfl, by decide, by decide⟩

/-- Claim C10: a tenant whose name contains the small replica marker
text, created with tier standard, is reported by list as tier small,
because the marker is matched as a substring of the whole deployment
text and the name is interpolated into that text. -/
theorem C10_name_collision :
    (create_tenant ("replicas: 1") Tier.standard emptyFS).map
        (fun fs => alLookup ("replicas: 1") (list_tenants fs)) =
      some (some (some ("small"))) := by decide

end ProvisionTenant
